import Mathlib

/-!
Verification of the task-lifecycle controller of flowsy-vue-task.

The repository contains two variants of the controller:
  * `src/src/task.ts` — modelled in namespace `TaskTs`;
  * `src/unnamed/part_000` (an alternate version of `task.ts`, the one with
    `throwOnFail`, a `canAbort` predicate option, an initial-`argument`
    option and result normalization) — modelled in namespace `Part000`.

JavaScript values relevant to the controller (arguments, results, error
payloads) are modelled by `JSVal`, which carries exactly the truthiness
structure the source relies on (`if (a)`, `v || undefined`,
`if (error.value && ...)`).  `ref<T>()` cells start as `undefined`, so an
absent slot is `JSVal.undef`.

`execute` is an async function with a single suspension point (the `await`
of the wrapped action).  It is modelled in two halves: `executeStart` (the
guards, argument overwrite, slot clearing, transition to Executing and the
`onExecuting` dispatch) and `executeFinish` (the try/catch/finally around
the action's settlement and the final rethrow/return).  A run with no
interleaving is their composition `executeRun`; an abort interleaved at
the suspension point is `executeStart`, then `abort`, then
`executeFinish`.

Hook callbacks are opaque: a registry is the list of registered callback
identifiers in registration order, and dispatching a hook kind produces
one `DispatchEvent` per registered callback, in order, carrying the
snapshot (`{state, argument, result, error}`) the callback observes at
invocation time (the event context's getters are live reads of the
controller's cells).
-/

/-- A JavaScript value, with just enough structure to decide truthiness.
`undef` doubles as the absent value of an optional slot. -/
inductive JSVal where
  | undef
  | nullv
  | bool (b : Bool)
  | num (n : Int)
  | str (s : String)
  | obj (id : Nat)
deriving DecidableEq

/-- JavaScript truthiness: `undefined`, `null`, `false`, `0` and the empty
string are falsy; every object is truthy. -/
def JSVal.truthy : JSVal → Bool
  | .undef => false
  | .nullv => false
  | .bool b => b
  | .num n => n != 0
  | .str s => s != ""
  | .obj _ => true

/-- `v || undefined`: the normalization applied to the action's resolved
value in `src/unnamed/part_000`. -/
def jsOr (v : JSVal) : JSVal :=
  if v.truthy then v else JSVal.undef

/-- The five task states of `task-state.ts`. -/
inductive TaskState where
  | Idle
  | Executing
  | Completed
  | Failed
  | Aborted
deriving DecidableEq

/-- The six hook kinds. -/
inductive HookKind where
  | onIdle
  | onExecuting
  | onCompleted
  | onFailed
  | onAborted
  | onFinished
deriving DecidableEq

/-- The snapshot a hook callback observes through the event context at the
moment it is invoked. -/
structure Snapshot where
  state : TaskState
  argument : JSVal
  result : JSVal
  error : JSVal
deriving DecidableEq

/-- One hook invocation: which kind fired, which registered callback ran,
and the snapshot it observed. -/
structure DispatchEvent where
  kind : HookKind
  hookId : Nat
  ctx : Snapshot
deriving DecidableEq

/-- The guard errors thrown synchronously by execute/abort/reset. -/
inductive TaskErr where
  | alreadyExecuting
  | cannotExecute
  | cannotAbort
  | cannotReset
deriving DecidableEq

/-- The controller's mutable cells (`state`, `argument`, `result`, `error`
refs) together with the six hook registries, each the list of registered
callback ids in registration order. -/
structure TaskCtl where
  state : TaskState := TaskState.Idle
  argument : JSVal := JSVal.undef
  result : JSVal := JSVal.undef
  error : JSVal := JSVal.undef
  onIdleHooks : List Nat := []
  onExecutingHooks : List Nat := []
  onCompletedHooks : List Nat := []
  onFailedHooks : List Nat := []
  onAbortedHooks : List Nat := []
  onFinishedHooks : List Nat := []
deriving DecidableEq

/-- Current snapshot of the controller's cells. -/
def snap (ctl : TaskCtl) : Snapshot :=
  ⟨ctl.state, ctl.argument, ctl.result, ctl.error⟩

/-- `hooks.forEach((fn) => fn(ctx))`: invoke every registered callback in
registration order with the current snapshot. -/
def dispatch (k : HookKind) (hooks : List Nat) (s : Snapshot) : List DispatchEvent :=
  hooks.map (fun h => ⟨k, h, s⟩)

/-- Registration appends to the registry (`onIdleHooks.push(fn)`). -/
def regOnIdle (ctl : TaskCtl) (fn : Nat) : TaskCtl :=
  { ctl with onIdleHooks := ctl.onIdleHooks ++ [fn] }

/-- Registration appends to the registry (`onExecutingHooks.push(fn)`). -/
def regOnExecuting (ctl : TaskCtl) (fn : Nat) : TaskCtl :=
  { ctl with onExecutingHooks := ctl.onExecutingHooks ++ [fn] }

/-- Registration appends to the registry (`onCompletedHooks.push(fn)`). -/
def regOnCompleted (ctl : TaskCtl) (fn : Nat) : TaskCtl :=
  { ctl with onCompletedHooks := ctl.onCompletedHooks ++ [fn] }

/-- Registration appends to the registry (`onFailedHooks.push(fn)`). -/
def regOnFailed (ctl : TaskCtl) (fn : Nat) : TaskCtl :=
  { ctl with onFailedHooks := ctl.onFailedHooks ++ [fn] }

/-- Registration appends to the registry (`onAbortedHooks.push(fn)`). -/
def regOnAborted (ctl : TaskCtl) (fn : Nat) : TaskCtl :=
  { ctl with onAbortedHooks := ctl.onAbortedHooks ++ [fn] }

/-- Registration appends to the registry (`onFinishedHooks.push(fn)`). -/
def regOnFinished (ctl : TaskCtl) (fn : Nat) : TaskCtl :=
  { ctl with onFinishedHooks := ctl.onFinishedHooks ++ [fn] }

/-- Result of a synchronous operation (or of the synchronous prefix of
`execute`): the controller afterwards, the hook invocations it performed,
and the guard error it threw, if any. -/
structure OpResult where
  ctl : TaskCtl
  events : List DispatchEvent
  err : Option TaskErr
deriving DecidableEq

/-- How the in-flight action settles: the promise resolves with a value or
rejects with a payload. -/
inductive ActionOutcome where
  | resolved (v : JSVal)
  | rejected (e : JSVal)
deriving DecidableEq

/-- How an `execute` call finishes towards its own caller. -/
inductive ExecOutcome where
  | guardErr (e : TaskErr)
  | thrown (e : JSVal)
  | returned (r : JSVal)
deriving DecidableEq

/-- Result of a whole `execute` run: controller afterwards, hook
invocations, and what `execute` did towards its caller. -/
structure ExecResult where
  ctl : TaskCtl
  events : List DispatchEvent
  outcome : ExecOutcome
deriving DecidableEq

namespace Part000

/-- Options of `src/unnamed/part_000`.  Function-typed options are
modelled by their semantic content: `canExecute`/`canAbort` as optional
predicates on the argument, `abort` as whether an abort function is
configured (a configured function is truthy, so `options?.abort`
truthiness coincides with presence), `createArgument` as the value the
configured factory produces (`none` = no factory configured), and
`throwOnFail` as the boolean `!!options.throwOnFail`. -/
structure TaskOptions where
  argument : JSVal := JSVal.undef
  canExecute : Option (JSVal → Bool) := none
  canAbort : Option (JSVal → Bool) := none
  abort : Bool := false
  createArgument : Option JSVal := none
  throwOnFail : Bool := false

/-- The `canExecute` computed: apply the configured predicate to the
current argument, defaulting to `true`. -/
def canExecuteVal (opts : TaskOptions) (ctl : TaskCtl) : Bool :=
  match opts.canExecute with
  | some p => p ctl.argument
  | none => true

/-- The `canAbort` computed: apply the configured predicate to the current
argument, defaulting to `false`. -/
def canAbortVal (opts : TaskOptions) (ctl : TaskCtl) : Bool :=
  match opts.canAbort with
  | some p => p ctl.argument
  | none => false

/-- `useTask` construction: cells start empty, except that a truthy
`options.argument` seeds the argument cell; registries start empty. -/
def useTask (opts : TaskOptions) : TaskCtl :=
  { state := TaskState.Idle
    argument := if opts.argument.truthy then opts.argument else JSVal.undef
    result := JSVal.undef
    error := JSVal.undef
    onIdleHooks := []
    onExecutingHooks := []
    onCompletedHooks := []
    onFailedHooks := []
    onAbortedHooks := []
    onFinishedHooks := [] }

/-- The synchronous prefix of `execute(a?)` up to the `await`:
the AlreadyExecuting guard, the truthiness-gated argument overwrite
(`if (a) argument.value = a`), the CannotExecute guard, the transition to
Executing with `result.value = undefined` (this variant does not clear
`error`), and the `onExecuting` dispatch.  `a = JSVal.undef` is the
omitted argument. -/
def executeStart (opts : TaskOptions) (ctl : TaskCtl) (a : JSVal) : OpResult :=
  if ctl.state = TaskState.Executing then
    ⟨ctl, [], some TaskErr.alreadyExecuting⟩
  else
    let ctl1 := if a.truthy then { ctl with argument := a } else ctl
    if ¬ canExecuteVal opts ctl1 then
      ⟨ctl1, [], some TaskErr.cannotExecute⟩
    else
      let ctl2 := { ctl1 with state := TaskState.Executing, result := JSVal.undef }
      ⟨ctl2, dispatch HookKind.onExecuting ctl2.onExecutingHooks (snap ctl2), none⟩

/-- The rest of `execute` once the awaited action settles: the try/catch
(on resolution, `result.value = (await action(...)) || undefined` then
`state = Completed`; on rejection, `error.value = e` then
`state = Failed`), the finally block's conditional `onCompleted`/`onFailed`
dispatch followed by the `onFinished` dispatch, and the final
`if (error.value && options && !!options.throwOnFail) throw error.value`
before `return result.value`.  It runs on the controller as it is at
settlement time, which an interleaved `abort` may have modified. -/
def executeFinish (opts : TaskOptions) (ctl : TaskCtl) (out : ActionOutcome) : ExecResult :=
  let ctl1 :=
    match out with
    | ActionOutcome.resolved v => { ctl with result := jsOr v, state := TaskState.Completed }
    | ActionOutcome.rejected e => { ctl with error := e, state := TaskState.Failed }
  let evMain :=
    if ctl1.state = TaskState.Completed then
      dispatch HookKind.onCompleted ctl1.onCompletedHooks (snap ctl1)
    else if ctl1.state = TaskState.Failed then
      dispatch HookKind.onFailed ctl1.onFailedHooks (snap ctl1)
    else []
  let evFin := dispatch HookKind.onFinished ctl1.onFinishedHooks (snap ctl1)
  let oc :=
    if ctl1.error.truthy && opts.throwOnFail then ExecOutcome.thrown ctl1.error
    else ExecOutcome.returned ctl1.result
  ⟨ctl1, evMain ++ evFin, oc⟩

/-- A whole `execute` run with no interleaved operation at the suspension
point. -/
def executeRun (opts : TaskOptions) (ctl : TaskCtl) (a : JSVal) (out : ActionOutcome) :
    ExecResult :=
  match executeStart opts ctl a with
  | ⟨c, evs, some e⟩ => ⟨c, evs, ExecOutcome.guardErr e⟩
  | ⟨c, evs, none⟩ =>
    let r := executeFinish opts c out
    ⟨r.ctl, evs ++ r.events, r.outcome⟩

/-- `abort()` of `src/unnamed/part_000`: throws CannotAbort unless
executing, the `canAbort` computed is true, `options.abort` is configured
(truthy) and `options.canAbort` is a function; on success sets the state
to Aborted and dispatches the `onAborted` hooks (and nothing else — it
does not invoke the configured abort function and does not dispatch
`onFinished`). -/
def abort (opts : TaskOptions) (ctl : TaskCtl) : OpResult :=
  if ¬ ctl.state = TaskState.Executing ∨ ¬ canAbortVal opts ctl
      ∨ ¬ (opts.abort ∧ opts.canAbort.isSome) then
    ⟨ctl, [], some TaskErr.cannotAbort⟩
  else
    let ctl1 := { ctl with state := TaskState.Aborted }
    ⟨ctl1, dispatch HookKind.onAborted ctl1.onAbortedHooks (snap ctl1), none⟩

/-- `reset()`: throws CannotReset while executing; otherwise sets the
state to Idle, sets the argument to the configured factory's output (or
`undefined` when none is configured), clears `result` and `error`, and
dispatches the `onIdle` hooks. -/
def reset (opts : TaskOptions) (ctl : TaskCtl) : OpResult :=
  if ctl.state = TaskState.Executing then
    ⟨ctl, [], some TaskErr.cannotReset⟩
  else
    let arg :=
      match opts.createArgument with
      | some v => v
      | none => JSVal.undef
    let ctl1 := { ctl with
      state := TaskState.Idle
      argument := arg
      result := JSVal.undef
      error := JSVal.undef }
    ⟨ctl1, dispatch HookKind.onIdle ctl1.onIdleHooks (snap ctl1), none⟩

end Part000

namespace TaskTs

/-- Options of `src/src/task.ts`: `createArgument` modelled by the value
the configured factory produces (`none` = not configured), `canExecute` as
an optional predicate, `abort` as whether an abort function is configured
(the `canAbort` computed of this variant is exactly that). -/
structure TaskOptions where
  createArgument : Option JSVal := none
  canExecute : Option (JSVal → Bool) := none
  abort : Bool := false

/-- The `canExecute` computed of `src/src/task.ts`. -/
def canExecuteVal (opts : TaskOptions) (ctl : TaskCtl) : Bool :=
  match opts.canExecute with
  | some p => p ctl.argument
  | none => true

/-- `useTask` construction of `src/src/task.ts`: the argument cell is
seeded from the `createArgument` factory when one is configured. -/
def useTask (opts : TaskOptions) : TaskCtl :=
  { state := TaskState.Idle
    argument :=
      match opts.createArgument with
      | some v => v
      | none => JSVal.undef
    result := JSVal.undef
    error := JSVal.undef
    onIdleHooks := []
    onExecutingHooks := []
    onCompletedHooks := []
    onFailedHooks := []
    onAbortedHooks := []
    onFinishedHooks := [] }

/-- The synchronous prefix of `execute(a?)` in `src/src/task.ts` up to the
`await`: the AlreadyExecuting guard, the truthiness-gated argument
overwrite, the CannotExecute guard, the transition to Executing with
`result.value = undefined` and `error.value = undefined` (this variant
clears both slots), and the `onExecuting` dispatch. -/
def executeStart (opts : TaskOptions) (ctl : TaskCtl) (a : JSVal) : OpResult :=
  if ctl.state = TaskState.Executing then
    ⟨ctl, [], some TaskErr.alreadyExecuting⟩
  else
    let ctl1 := if a.truthy then { ctl with argument := a } else ctl
    if ¬ canExecuteVal opts ctl1 then
      ⟨ctl1, [], some TaskErr.cannotExecute⟩
    else
      let ctl2 := { ctl1 with
        state := TaskState.Executing
        result := JSVal.undef
        error := JSVal.undef }
      ⟨ctl2, dispatch HookKind.onExecuting ctl2.onExecutingHooks (snap ctl2), none⟩

end TaskTs

/-- Concrete scenario for the mid-flight abort: an abort capability is
configured with an always-true guard. -/
def optsC1 : Part000.TaskOptions := { canAbort := some (fun _ => true), abort := true }

/-- The scenario's controller right after `executeStart` (state
Executing), with an `onCompleted`, an `onAborted` and an `onFinished`
hook registered. -/
def ctlC1 : TaskCtl :=
  (Part000.executeStart optsC1
    { onCompletedHooks := [9], onAbortedHooks := [5], onFinishedHooks := [7] }
    JSVal.undef).ctl

/-- The scenario's controller right after a successful mid-flight
`abort()`, while the action is still pending. -/
def ctlC1aborted : TaskCtl := (Part000.abort optsC1 ctlC1).ctl

/-! ### Helper lemmas shared by several theorems -/

/-- A true `canAbort` computed can only come from a configured `canAbort`
predicate. -/
theorem canAbortVal_isSome (opts : Part000.TaskOptions) (ctl : TaskCtl)
    (h : Part000.canAbortVal opts ctl = true) : opts.canAbort.isSome = true := by
  unfold Part000.canAbortVal at h
  cases hc : opts.canAbort <;> simp [hc] at h ⊢

/-- Shape of a successful `abort` call: state set to Aborted, the
`onAborted` hooks dispatched with the post-transition snapshot, nothing
else touched. -/
theorem abort_ok_eq (opts : Part000.TaskOptions) (ctl : TaskCtl)
    (h : (Part000.abort opts ctl).err = none) :
    Part000.abort opts ctl =
      ⟨{ ctl with state := TaskState.Aborted },
       dispatch HookKind.onAborted ctl.onAbortedHooks
         ⟨TaskState.Aborted, ctl.argument, ctl.result, ctl.error⟩,
       none⟩ := by
  unfold Part000.abort at h ⊢
  split at h
  · simp at h
  · rename_i hg
    rw [if_neg hg]
    simp [snap]

/-- Shape of `executeFinish` when the action resolves: result normalized
with `|| undefined`, state Completed, `onCompleted` then `onFinished`
dispatched, and the rethrow decided by the (possibly stale) error slot. -/
theorem executeFinish_resolved (opts : Part000.TaskOptions) (c : TaskCtl) (v : JSVal) :
    Part000.executeFinish opts c (ActionOutcome.resolved v) =
      ⟨{ c with result := jsOr v, state := TaskState.Completed },
       dispatch HookKind.onCompleted c.onCompletedHooks
         ⟨TaskState.Completed, c.argument, jsOr v, c.error⟩
         ++ dispatch HookKind.onFinished c.onFinishedHooks
              ⟨TaskState.Completed, c.argument, jsOr v, c.error⟩,
       if c.error.truthy && opts.throwOnFail then ExecOutcome.thrown c.error
       else ExecOutcome.returned (jsOr v)⟩ := by
  simp [Part000.executeFinish, snap]

/-- Shape of `executeFinish` when the action rejects: error set, state
Failed, `onFailed` then `onFinished` dispatched, rethrow decided by the
payload's truthiness and `throwOnFail`. -/
theorem executeFinish_rejected (opts : Part000.TaskOptions) (c : TaskCtl) (e : JSVal) :
    Part000.executeFinish opts c (ActionOutcome.rejected e) =
      ⟨{ c with error := e, state := TaskState.Failed },
       dispatch HookKind.onFailed c.onFailedHooks
         ⟨TaskState.Failed, c.argument, c.result, e⟩
         ++ dispatch HookKind.onFinished c.onFinishedHooks
              ⟨TaskState.Failed, c.argument, c.result, e⟩,
       if e.truthy && opts.throwOnFail then ExecOutcome.thrown e
       else ExecOutcome.returned c.result⟩ := by
  simp [Part000.executeFinish, snap]

/-! ### The claims -/

/-- C7: calling `execute` while the controller is Executing throws
AlreadyExecuting and performs no mutation and no dispatch: the returned
controller is the input controller unchanged. -/
theorem execute_alreadyExecuting (opts : Part000.TaskOptions) (ctl : TaskCtl) (a : JSVal)
    (h : ctl.state = TaskState.Executing) :
    Part000.executeStart opts ctl a = ⟨ctl, [], some TaskErr.alreadyExecuting⟩ := by
  simp [Part000.executeStart, h]

/-- C7 witness: a concrete Executing controller with a supplied argument
is returned unchanged with the AlreadyExecuting error. -/
theorem execute_alreadyExecuting_witness :
    Part000.executeStart {} { state := TaskState.Executing, argument := JSVal.num 1 }
        (JSVal.num 2)
      = ⟨{ state := TaskState.Executing, argument := JSVal.num 1 }, [],
         some TaskErr.alreadyExecuting⟩ :=
  execute_alreadyExecuting {} { state := TaskState.Executing, argument := JSVal.num 1 }
    (JSVal.num 2) rfl

/-- C6: `abort()` succeeds exactly when the state is Executing, an abort
capability is configured and the `canAbort` guard evaluates true against
the current argument; in every other case it throws CannotAbort and
leaves the controller unchanged. -/
theorem abort_guard_characterization (opts : Part000.TaskOptions) (ctl : TaskCtl) :
    ((Part000.abort opts ctl).err = none ↔
      ctl.state = TaskState.Executing ∧ opts.abort = true
        ∧ Part000.canAbortVal opts ctl = true) ∧
    ((Part000.abort opts ctl).err ≠ none →
      Part000.abort opts ctl = ⟨ctl, [], some TaskErr.cannotAbort⟩) := by
  unfold Part000.abort
  split
  · rename_i hg
    refine ⟨⟨fun h => by simp at h, ?_⟩, fun _ => rfl⟩
    rintro ⟨h1, h2, h3⟩
    exfalso
    rcases hg with hA | hB | hC
    · exact hA h1
    · exact hB h3
    · exact hC ⟨h2, canAbortVal_isSome opts ctl h3⟩
  · rename_i hg
    push_neg at hg
    refine ⟨⟨fun _ => ⟨hg.1, hg.2.2.1, hg.2.1⟩, fun _ => by simp⟩, fun hn => ?_⟩
    exact absurd (by simp) hn

/-- C6 witness: with a configured abort capability and an always-true
guard, aborting a concrete Executing controller succeeds. -/
theorem abort_guard_characterization_witness :
    (Part000.abort { canAbort := some (fun _ => true), abort := true }
      { state := TaskState.Executing }).err = none :=
  (abort_guard_characterization { canAbort := some (fun _ => true), abort := true }
    { state := TaskState.Executing }).1.mpr (by decide)

/-- C4: in `src/src/task.ts`, every `execute` call that passes its guards
(not already Executing, `canExecute` true against the effective argument)
clears both the result slot and the error slot when entering Executing,
before the `onExecuting` hooks run, so each `onExecuting` hook observes a
snapshot with state Executing and absent result and error. -/
theorem executeStart_clears_result_error (opts : TaskTs.TaskOptions) (ctl : TaskCtl)
    (a : JSVal)
    (h1 : ¬ ctl.state = TaskState.Executing)
    (h2 : TaskTs.canExecuteVal opts
      (if a.truthy then { ctl with argument := a } else ctl) = true) :
    TaskTs.executeStart opts ctl a =
      ⟨{ (if a.truthy then { ctl with argument := a } else ctl) with
          state := TaskState.Executing, result := JSVal.undef, error := JSVal.undef },
       dispatch HookKind.onExecuting ctl.onExecutingHooks
         ⟨TaskState.Executing,
          (if a.truthy then { ctl with argument := a } else ctl).argument,
          JSVal.undef, JSVal.undef⟩,
       none⟩ := by
  unfold TaskTs.executeStart
  rw [if_neg h1]
  by_cases ht : a.truthy = true <;>
    simp only [ht, Bool.false_eq_true, if_true, if_false] at h2 ⊢ <;>
    simp [h2, snap, dispatch]

/-- C4 witness: starting a concrete controller that carries a stale error
and result yields cleared slots and an `onExecuting` dispatch observing
them cleared. -/
theorem executeStart_clears_result_error_witness :
    TaskTs.executeStart {}
        { state := TaskState.Failed, result := JSVal.num 9, error := JSVal.obj 2,
          onExecutingHooks := [3] } (JSVal.num 4) =
      ⟨{ (if (JSVal.num 4).truthy then
            { ({ state := TaskState.Failed, result := JSVal.num 9, error := JSVal.obj 2,
                 onExecutingHooks := [3] } : TaskCtl) with argument := JSVal.num 4 }
          else
            { state := TaskState.Failed, result := JSVal.num 9, error := JSVal.obj 2,
              onExecutingHooks := [3] }) with
          state := TaskState.Executing, result := JSVal.undef, error := JSVal.undef },
       dispatch HookKind.onExecuting
         ({ state := TaskState.Failed, result := JSVal.num 9, error := JSVal.obj 2,
            onExecutingHooks := [3] } : TaskCtl).onExecutingHooks
         ⟨TaskState.Executing,
          (if (JSVal.num 4).truthy then
            { ({ state := TaskState.Failed, result := JSVal.num 9, error := JSVal.obj 2,
                 onExecutingHooks := [3] } : TaskCtl) with argument := JSVal.num 4 }
          else
            { state := TaskState.Failed, result := JSVal.num 9, error := JSVal.obj 2,
              onExecutingHooks := [3] }).argument,
          JSVal.undef, JSVal.undef⟩,
       none⟩ :=
  executeStart_clears_result_error {}
    { state := TaskState.Failed, result := JSVal.num 9, error := JSVal.obj 2,
      onExecutingHooks := [3] }
    (JSVal.num 4) (by decide) (by decide)

/-- C5 counterexample: with stored argument `5`, passing the (falsy) value
`0` to `execute` does not override the stored argument — the run proceeds
(no guard error) with argument `5`, not `0`. -/
theorem falsy_argument_not_overriding_cex :
    (Part000.executeStart {} { argument := JSVal.num 5 } (JSVal.num 0)).err = none ∧
    (Part000.executeStart {} { argument := JSVal.num 5 } (JSVal.num 0)).ctl.argument
      = JSVal.num 5 ∧
    ¬ (Part000.executeStart {} { argument := JSVal.num 5 } (JSVal.num 0)).ctl.argument
      = JSVal.num 0 := by
  decide

/-- C5 (amended): a truthy value passed directly to `execute` overrides
the stored argument and persists (the action is later invoked with the
stored argument, which `executeFinish` never changes); a falsy or omitted
argument leaves the stored argument unchanged and it is reused. -/
theorem execute_argument_precedence (opts : Part000.TaskOptions) (ctl : TaskCtl) (a : JSVal)
    (h : ¬ ctl.state = TaskState.Executing) :
    (Part000.executeStart opts ctl a).ctl.argument
      = (if a.truthy then a else ctl.argument) ∧
    (∀ c out, (Part000.executeFinish opts c out).ctl.argument = c.argument) := by
  constructor
  · unfold Part000.executeStart
    rw [if_neg h]
    by_cases ht : a.truthy <;> by_cases hc : Part000.canExecuteVal opts
        (if a.truthy then { ctl with argument := a } else ctl) <;>
      simp [ht] at hc ⊢ <;> simp [hc]
  · intro c out
    cases out <;> simp [Part000.executeFinish]

/-- C5 witness: passing the truthy value `7` over stored argument `5`
overrides it. -/
theorem execute_argument_precedence_witness :
    (Part000.executeStart {} { argument := JSVal.num 5 } (JSVal.num 7)).ctl.argument
      = (if (JSVal.num 7).truthy then JSVal.num 7 else JSVal.num 5) :=
  (execute_argument_precedence {} { argument := JSVal.num 5 } (JSVal.num 7) (by decide)).1

/-- C10: when `execute` is called in a non-Executing state with a supplied
truthy argument for which the `canExecute` guard then evaluates false, it
throws CannotExecute, yet the returned controller already carries the
supplied argument (the overwrite is not rolled back), with every other
slot — in particular the state — unchanged, and no hooks dispatched. -/
theorem guard_failure_keeps_overwritten_argument (opts : Part000.TaskOptions)
    (ctl : TaskCtl) (a : JSVal)
    (h1 : ¬ ctl.state = TaskState.Executing) (h2 : a.truthy = true)
    (h3 : Part000.canExecuteVal opts { ctl with argument := a } = false) :
    Part000.executeStart opts ctl a
      = ⟨{ ctl with argument := a }, [], some TaskErr.cannotExecute⟩ := by
  unfold Part000.executeStart
  rw [if_neg h1]
  simp [h2, h3]

/-- C10 witness: with a guard accepting only `1`, calling execute with
argument `2` on a controller holding `1` fails CannotExecute and leaves
argument `2` stored. -/
theorem guard_failure_keeps_overwritten_argument_witness :
    Part000.executeStart { canExecute := some (fun x => x == JSVal.num 1) }
        { argument := JSVal.num 1 } (JSVal.num 2)
      = ⟨{ ({ argument := JSVal.num 1 } : TaskCtl) with argument := JSVal.num 2 }, [],
         some TaskErr.cannotExecute⟩ :=
  guard_failure_keeps_overwritten_argument { canExecute := some (fun x => x == JSVal.num 1) }
    { argument := JSVal.num 1 } (JSVal.num 2) (by decide) (by decide) (by decide)

/-- C8: from every non-Executing state, `reset()` returns the state to
Idle, clears result and error, sets the argument to the configured
`createArgument` factory's output (absent when none is configured), and
then dispatches the `onIdle` hooks in registration order with the
post-reset snapshot. -/
theorem reset_behavior (opts : Part000.TaskOptions) (ctl : TaskCtl)
    (h : ¬ ctl.state = TaskState.Executing) :
    Part000.reset opts ctl =
      ⟨{ ctl with
          state := TaskState.Idle
          argument := opts.createArgument.getD JSVal.undef
          result := JSVal.undef
          error := JSVal.undef },
       dispatch HookKind.onIdle ctl.onIdleHooks
         ⟨TaskState.Idle, opts.createArgument.getD JSVal.undef, JSVal.undef, JSVal.undef⟩,
       none⟩ := by
  unfold Part000.reset
  rw [if_neg h]
  cases opts.createArgument <;> simp [snap, dispatch, Option.getD]

/-- C8 witness: resetting a concrete Failed controller with a configured
factory restores Idle, installs the factory output `42`, clears the
slots and fires the registered `onIdle` hook once. -/
theorem reset_behavior_witness :
    Part000.reset { createArgument := some (JSVal.num 42) }
        { state := TaskState.Failed, argument := JSVal.num 9, result := JSVal.num 2,
          error := JSVal.obj 1, onIdleHooks := [4] } =
      ⟨{ ({ state := TaskState.Failed, argument := JSVal.num 9, result := JSVal.num 2,
            error := JSVal.obj 1, onIdleHooks := [4] } : TaskCtl) with
          state := TaskState.Idle
          argument := (some (JSVal.num 42)).getD JSVal.undef
          result := JSVal.undef
          error := JSVal.undef },
       dispatch HookKind.onIdle
         ({ state := TaskState.Failed, argument := JSVal.num 9, result := JSVal.num 2,
            error := JSVal.obj 1, onIdleHooks := [4] } : TaskCtl).onIdleHooks
         ⟨TaskState.Idle, (some (JSVal.num 42)).getD JSVal.undef, JSVal.undef, JSVal.undef⟩,
       none⟩ :=
  reset_behavior { createArgument := some (JSVal.num 42) }
    { state := TaskState.Failed, argument := JSVal.num 9, result := JSVal.num 2,
      error := JSVal.obj 1, onIdleHooks := [4] } (by decide)

/-- C9: when the action resolves with a falsy (absent/empty) value, the
completed controller's result slot holds the absent value `undefined`
itself — indistinguishable from no result. -/
theorem falsy_result_normalized (opts : Part000.TaskOptions) (ctl : TaskCtl) (v : JSVal)
    (h : v.truthy = false) :
    (Part000.executeFinish opts ctl (ActionOutcome.resolved v)).ctl.result = JSVal.undef ∧
    (Part000.executeFinish opts ctl (ActionOutcome.resolved v)).ctl.state
      = TaskState.Completed := by
  rw [executeFinish_resolved]
  simp [jsOr, h]

/-- C9 witness: resolving with `0` leaves the result slot absent on a
Completed controller. -/
theorem falsy_result_normalized_witness :
    (Part000.executeFinish {} { state := TaskState.Executing }
        (ActionOutcome.resolved (JSVal.num 0))).ctl.result = JSVal.undef ∧
    (Part000.executeFinish {} { state := TaskState.Executing }
        (ActionOutcome.resolved (JSVal.num 0))).ctl.state = TaskState.Completed :=
  falsy_result_normalized {} { state := TaskState.Executing } (JSVal.num 0) (by decide)

/-- Shape of a successful `executeStart` in `src/unnamed/part_000`: the
effective argument stored, state Executing, result cleared (error kept),
`onExecuting` dispatched. -/
theorem executeStart_ok (opts : Part000.TaskOptions) (ctl : TaskCtl) (a : JSVal)
    (h : (Part000.executeStart opts ctl a).err = none) :
    Part000.executeStart opts ctl a =
      ⟨{ (if a.truthy then { ctl with argument := a } else ctl) with
          state := TaskState.Executing, result := JSVal.undef },
       dispatch HookKind.onExecuting ctl.onExecutingHooks
         ⟨TaskState.Executing,
          (if a.truthy then { ctl with argument := a } else ctl).argument,
          JSVal.undef, ctl.error⟩,
       none⟩ := by
  unfold Part000.executeStart at h ⊢
  by_cases h1 : ctl.state = TaskState.Executing
  · rw [if_pos h1] at h
    simp at h
  · rw [if_neg h1] at h ⊢
    by_cases hc : Part000.canExecuteVal opts
        (if a.truthy then { ctl with argument := a } else ctl) = true
    · by_cases ht : a.truthy = true <;>
        simp only [ht, Bool.false_eq_true, if_true, if_false] at hc h ⊢ <;>
        simp [hc, snap, dispatch]
    · by_cases ht : a.truthy = true <;>
        simp only [ht, Bool.false_eq_true, if_true, if_false] at hc h ⊢ <;>
        simp [hc] at h

/-- C2 counterexample: with `throwOnFail` configured true, an action that
rejects with the falsy payload `0` still leaves the controller Failed
with `error = 0`, yet `execute` returns instead of re-raising — the
re-raise does not happen for every rejection even when `throwOnFail` is
true, refuting the stated "if and only if". -/
theorem reject_falsy_no_rethrow_cex :
    (Part000.executeRun { throwOnFail := true } {} JSVal.undef
        (ActionOutcome.rejected (JSVal.num 0))).ctl.state = TaskState.Failed ∧
    (Part000.executeRun { throwOnFail := true } {} JSVal.undef
        (ActionOutcome.rejected (JSVal.num 0))).ctl.error = JSVal.num 0 ∧
    (Part000.executeRun { throwOnFail := true } {} JSVal.undef
        (ActionOutcome.rejected (JSVal.num 0))).outcome
      = ExecOutcome.returned JSVal.undef := by
  decide

/-- C2 (amended): every execution whose action rejects enters Failed with
the error slot set to the rejection payload; `execute` re-raises that
payload to its caller precisely when `throwOnFail` is configured true
AND the payload is truthy; under the default configuration
(`throwOnFail` false) `execute` returns without raising. -/
theorem execute_reject_behavior (opts : Part000.TaskOptions) (ctl : TaskCtl) (a e : JSVal)
    (h : (Part000.executeStart opts ctl a).err = none) :
    (Part000.executeRun opts ctl a (ActionOutcome.rejected e)).ctl.state
      = TaskState.Failed ∧
    (Part000.executeRun opts ctl a (ActionOutcome.rejected e)).ctl.error = e ∧
    ((Part000.executeRun opts ctl a (ActionOutcome.rejected e)).outcome
        = ExecOutcome.thrown e
      ↔ e.truthy = true ∧ opts.throwOnFail = true) ∧
    (opts.throwOnFail = false →
      (Part000.executeRun opts ctl a (ActionOutcome.rejected e)).outcome
        = ExecOutcome.returned JSVal.undef) := by
  unfold Part000.executeRun
  rw [executeStart_ok opts ctl a h]
  simp only []
  rw [executeFinish_rejected]
  refine ⟨rfl, rfl, ?_, ?_⟩
  · by_cases hE : e.truthy = true <;> by_cases hT : opts.throwOnFail = true <;>
      simp [hE, hT]
  · intro hT
    simp [hT]

/-- C2 witness: a truthy rejection payload under `throwOnFail = true` is
re-raised. -/
theorem execute_reject_behavior_witness :
    (Part000.executeRun { throwOnFail := true } {} JSVal.undef
        (ActionOutcome.rejected (JSVal.obj 1))).outcome
      = ExecOutcome.thrown (JSVal.obj 1) :=
  ((execute_reject_behavior { throwOnFail := true } {} JSVal.undef (JSVal.obj 1)
      (by decide)).2.2.1).mpr (by decide)

/-- C3 counterexample: a successful `abort()` on a controller with an
`onAborted` hook (id 5) and an `onFinished` hook (id 7) registered
dispatches only the `onAborted` hook; no `onFinished` dispatch occurs,
refuting the claimed onAborted-then-onFinished sequence. -/
theorem abort_no_onFinished_cex :
    (Part000.abort { canAbort := some (fun _ => true), abort := true }
        { state := TaskState.Executing, onAbortedHooks := [5],
          onFinishedHooks := [7] }).err = none ∧
    (Part000.abort { canAbort := some (fun _ => true), abort := true }
        { state := TaskState.Executing, onAbortedHooks := [5],
          onFinishedHooks := [7] }).events
      = [⟨HookKind.onAborted, 5,
          ⟨TaskState.Aborted, JSVal.undef, JSVal.undef, JSVal.undef⟩⟩] ∧
    ∀ ev ∈ (Part000.abort { canAbort := some (fun _ => true), abort := true }
        { state := TaskState.Executing, onAbortedHooks := [5],
          onFinishedHooks := [7] }).events,
      ¬ ev.kind = HookKind.onFinished := by
  decide

/-- C3 (amended): every successful `abort()` dispatches every registered
`onAborted` hook exactly once, in registration order, each observing the
post-transition (Aborted) snapshot; it dispatches no `onFinished` hook;
and it leaves the result and error slots unchanged. -/
theorem abort_dispatch_behavior (opts : Part000.TaskOptions) (ctl : TaskCtl)
    (h : (Part000.abort opts ctl).err = none) :
    (Part000.abort opts ctl).ctl.result = ctl.result ∧
    (Part000.abort opts ctl).ctl.error = ctl.error ∧
    (Part000.abort opts ctl).events
      = ctl.onAbortedHooks.map
          (fun hk => ⟨HookKind.onAborted, hk,
            ⟨TaskState.Aborted, ctl.argument, ctl.result, ctl.error⟩⟩) ∧
    (∀ ev ∈ (Part000.abort opts ctl).events, ¬ ev.kind = HookKind.onFinished) := by
  rw [abort_ok_eq opts ctl h]
  refine ⟨rfl, rfl, rfl, ?_⟩
  intro ev hev
  simp only [dispatch, List.mem_map] at hev
  obtain ⟨hk, -, rfl⟩ := hev
  simp

/-- C3 witness: aborting a concrete mid-flight controller with two
`onAborted` hooks leaves result and error intact and fires both hooks in
order. -/
theorem abort_dispatch_behavior_witness :
    (Part000.abort { canAbort := some (fun _ => true), abort := true }
        { state := TaskState.Executing, result := JSVal.num 1, error := JSVal.obj 3,
          onAbortedHooks := [5, 6] }).events
      = ({ state := TaskState.Executing, result := JSVal.num 1, error := JSVal.obj 3,
           onAbortedHooks := [5, 6] } : TaskCtl).onAbortedHooks.map
          (fun hk => ⟨HookKind.onAborted, hk,
            ⟨TaskState.Aborted, JSVal.undef, JSVal.num 1, JSVal.obj 3⟩⟩) :=
  (abort_dispatch_behavior { canAbort := some (fun _ => true), abort := true }
    { state := TaskState.Executing, result := JSVal.num 1, error := JSVal.obj 3,
      onAbortedHooks := [5, 6] } (by decide)).2.2.1

/-- C1 counterexample: in a run where `abort()` succeeds while the action
is in flight (state becomes Aborted), the action's later resolution with
`3` is NOT disregarded: the state moves on to Completed (it does not
remain Aborted), the result slot is mutated to `3`, and the registered
`onCompleted` hook (id 9) is dispatched. -/
theorem abort_settlement_observed_cex :
    (Part000.executeStart optsC1
        { onCompletedHooks := [9], onAbortedHooks := [5], onFinishedHooks := [7] }
        JSVal.undef).err = none ∧
    (Part000.abort optsC1 ctlC1).err = none ∧
    ctlC1aborted.state = TaskState.Aborted ∧
    (Part000.executeFinish optsC1 ctlC1aborted
        (ActionOutcome.resolved (JSVal.num 3))).ctl.state = TaskState.Completed ∧
    ¬ (Part000.executeFinish optsC1 ctlC1aborted
        (ActionOutcome.resolved (JSVal.num 3))).ctl.state = TaskState.Aborted ∧
    (Part000.executeFinish optsC1 ctlC1aborted
        (ActionOutcome.resolved (JSVal.num 3))).ctl.result = JSVal.num 3 ∧
    (⟨HookKind.onCompleted, 9,
        ⟨TaskState.Completed, JSVal.undef, JSVal.num 3, JSVal.undef⟩⟩ : DispatchEvent)
      ∈ (Part000.executeFinish optsC1 ctlC1aborted
          (ActionOutcome.resolved (JSVal.num 3))).events := by
  decide

/-- C1 (amended): after a successful mid-flight `abort()` the eventual
settlement of the in-flight action is still observed by the controller:
resolution overwrites the Aborted state with Completed, stores the
normalized result and dispatches the `onCompleted` then `onFinished`
hooks; rejection overwrites it with Failed, stores the error and
dispatches the `onFailed` then `onFinished` hooks. -/
theorem abort_then_settlement (opts : Part000.TaskOptions) (ctl : TaskCtl)
    (h : (Part000.abort opts ctl).err = none) :
    (∀ v, (Part000.executeFinish opts (Part000.abort opts ctl).ctl
        (ActionOutcome.resolved v)).ctl
      = { ctl with state := TaskState.Completed, result := jsOr v }) ∧
    (∀ v, (Part000.executeFinish opts (Part000.abort opts ctl).ctl
        (ActionOutcome.resolved v)).events
      = dispatch HookKind.onCompleted ctl.onCompletedHooks
          ⟨TaskState.Completed, ctl.argument, jsOr v, ctl.error⟩
        ++ dispatch HookKind.onFinished ctl.onFinishedHooks
          ⟨TaskState.Completed, ctl.argument, jsOr v, ctl.error⟩) ∧
    (∀ e, (Part000.executeFinish opts (Part000.abort opts ctl).ctl
        (ActionOutcome.rejected e)).ctl
      = { ctl with state := TaskState.Failed, error := e }) ∧
    (∀ e, (Part000.executeFinish opts (Part000.abort opts ctl).ctl
        (ActionOutcome.rejected e)).events
      = dispatch HookKind.onFailed ctl.onFailedHooks
          ⟨TaskState.Failed, ctl.argument, ctl.result, e⟩
        ++ dispatch HookKind.onFinished ctl.onFinishedHooks
          ⟨TaskState.Failed, ctl.argument, ctl.result, e⟩) := by
  rw [abort_ok_eq opts ctl h]
  refine ⟨fun v => ?_, fun v => ?_, fun e => ?_, fun e => ?_⟩ <;>
    simp [executeFinish_resolved, executeFinish_rejected, dispatch]

/-- C1 witness: in the concrete scenario, the post-abort settlement with
`3` yields the Completed controller holding result `3`. -/
theorem abort_then_settlement_witness :
    (Part000.executeFinish optsC1 (Part000.abort optsC1 ctlC1).ctl
        (ActionOutcome.resolved (JSVal.num 3))).ctl
      = { ctlC1 with state := TaskState.Completed, result := jsOr (JSVal.num 3) } :=
  (abort_then_settlement optsC1 ctlC1 (by decide)).1 (JSVal.num 3)
